import Mathlib

/-!
# Verification of `widg_sid_v25` item-widget behaviors

Shallow embedding of the behaviors of `src/views/widgets/item_widget.py`
(`ItemButton`): the sensitive-content reveal/auto-hide state machine
(`toggle_reveal`, `auto_hide`), the clipboard-clear timer
(`on_clicked`, `start_clipboard_clear_timer`), the URL normalization in
`open_in_browser` / `open_in_system_browser`, and the synchronous command
execution with timeout (`execute_command`).

Qt timers (`QTimer`) are modelled as explicit records carrying an id, an
active flag, the interval in milliseconds, and the single-shot flag; the
widget keeps (as in the Python source) an optional handle that names the
most recently created timer, while a list records every timer object ever
created, so that "number of live timers" is expressible. `stop()` marks a
timer inactive; a single-shot timer firing marks it inactive before its
connected slot runs. External collaborators (usage tracker, subprocess
boundary, dialogs, filesystem) are modelled as event traces and oracles.
-/

namespace WidgSid

/-- Item types, from `models.item.ItemType` as used in the widget code
(only the constructors the widget dispatches on are needed). -/
inductive ItemType
  | TEXT
  | URL
  | PATH
  | CODE
  | WEB_STATIC
  deriving DecidableEq, Repr

/-- The fields of `models.item.Item` read by the behaviors under study.
`working_dir` is `none` for Python `None`; the empty string models a
falsy (empty) `working_dir` attribute. -/
structure Item where
  id : Nat
  type : ItemType
  content : String
  label : String
  is_sensitive : Bool
  working_dir : Option String
  deriving DecidableEq, Repr

/-- A `QTimer` object: identity, whether it is currently running
(started and neither stopped nor fired), its interval in milliseconds
and its single-shot flag. -/
structure TimerObj where
  tid : Nat
  active : Bool
  interval : Nat
  singleShot : Bool
  deriving DecidableEq, Repr

/-- `timer.stop()` on the timer object with id `i` (identity on the
others); timers keep their identity, only the running flag changes. -/
def stopById (ts : List TimerObj) (i : Nat) : List TimerObj :=
  ts.map fun t => if t.tid = i then { t with active := false } else t

/-- The reveal-controller part of the `ItemButton` state:
`is_revealed` and `reveal_timer` are the fields initialized at
`__init__` (lines 49-50); `timers` lists every auto-hide `QTimer`
object ever created by this widget and `nextId` supplies fresh ids. -/
structure RevealState where
  is_revealed : Bool
  reveal_timer : Option Nat
  timers : List TimerObj
  nextId : Nat
  deriving DecidableEq, Repr

/-- `ItemButton.__init__`: `self.is_revealed = False`,
`self.reveal_timer = None`; no timer object exists yet. -/
def revealInit : RevealState :=
  { is_revealed := false, reveal_timer := none, timers := [], nextId := 0 }

/-- `if self.reveal_timer: self.reveal_timer.stop()` — stop the timer
named by the current handle, if any. -/
def cancelCurrent (s : RevealState) : List TimerObj :=
  match s.reveal_timer with
  | some i => stopById s.timers i
  | none => s.timers

/-- `ItemButton.toggle_reveal` (item_widget.py lines 905-933), state
effect only: flip `is_revealed`; if now revealed, stop the previous
timer if present, then create and start a fresh single-shot 10000 ms
`QTimer` connected to `auto_hide` and store its handle; if now hidden,
stop the current timer if present (the handle keeps pointing at the
stopped object). Label/icon updates are UI side effects, not state. -/
def toggle_reveal (s : RevealState) : RevealState :=
  let r := !s.is_revealed
  if r then
    { is_revealed := r
      reveal_timer := some s.nextId
      timers := cancelCurrent s ++ [⟨s.nextId, true, 10000, true⟩]
      nextId := s.nextId + 1 }
  else
    { s with is_revealed := r, timers := cancelCurrent s }

/-- The value a call to `toggle_reveal` evaluates to: the Python method
has no `return` statement, so it returns `None` (modelled as `none`;
`some b` would model returning the boolean `b`). -/
def toggle_reveal_return : Option Bool := none

/-- `ItemButton.auto_hide` (lines 935-938): the timer slot; toggles
back to hidden only if still revealed. -/
def auto_hide (s : RevealState) : RevealState :=
  if s.is_revealed then toggle_reveal s else s

/-- The event of the single-shot auto-hide timer with id `i` firing:
the timer stops being active (single shot), then the connected slot
`auto_hide` runs on the UI loop. -/
def fireRevealTimer (s : RevealState) (i : Nat) : RevealState :=
  auto_hide { s with timers := stopById s.timers i }

/-- Number of live (running) auto-hide timers owned by the widget. -/
def liveTimers (s : RevealState) : Nat :=
  (s.timers.filter fun t => t.active).length

/-- Whether some pending (running) auto-hide timer exists. -/
def pendingHide (s : RevealState) : Bool :=
  s.timers.any fun t => t.active

/-- Reachable-state invariant of the reveal controller: timer ids are
fresh and distinct, every running timer is the one named by the current
handle, the handle's timer is running exactly when revealed. -/
def RevealInv (s : RevealState) : Prop :=
  (∀ t ∈ s.timers, t.tid < s.nextId) ∧
  (s.timers.map TimerObj.tid).Nodup ∧
  (∀ t ∈ s.timers, t.active = true → s.reveal_timer = some t.tid) ∧
  (s.is_revealed = true → ∃ t ∈ s.timers, s.reveal_timer = some t.tid ∧ t.active = true) ∧
  (s.is_revealed = false → ∀ t ∈ s.timers, t.active = false)

instance (s : RevealState) : Decidable (RevealInv s) := by
  unfold RevealInv; infer_instance

theorem stopById_tid (ts : List TimerObj) (i : Nat) :
    (stopById ts i).map TimerObj.tid = ts.map TimerObj.tid := by
  induction ts with
  | nil => rfl
  | cons t ts ih =>
    simp only [stopById, List.map_cons] at *
    by_cases h : t.tid = i <;> simp [h, ih]

theorem mem_stopById {ts : List TimerObj} {i : Nat} {t : TimerObj}
    (h : t ∈ stopById ts i) :
    ∃ u ∈ ts, t.tid = u.tid ∧ t.interval = u.interval ∧
      t.singleShot = u.singleShot ∧ (t.active = true → u.active = true ∧ u.tid ≠ i) := by
  rcases List.mem_map.mp h with ⟨u, hu, he⟩
  by_cases hid : u.tid = i
  · refine ⟨u, hu, ?_⟩
    simp [hid] at he
    subst he
    simp [hid]
  · refine ⟨u, hu, ?_⟩
    simp [hid] at he
    subst he
    simp [hid]

theorem stopById_inactive {ts : List TimerObj} {i : Nat}
    (h : ∀ t ∈ ts, t.active = false) : ∀ t ∈ stopById ts i, t.active = false := by
  intro t ht
  rcases mem_stopById ht with ⟨u, hu, _, _, _, hact⟩
  by_contra hc
  simp only [Bool.not_eq_false] at hc
  exact absurd (hact hc).1 (by simp [h u hu])

theorem cancelCurrent_tid (s : RevealState) :
    (cancelCurrent s).map TimerObj.tid = s.timers.map TimerObj.tid := by
  unfold cancelCurrent
  cases s.reveal_timer <;> simp [stopById_tid]

theorem mem_cancelCurrent {s : RevealState} {t : TimerObj} (h : t ∈ cancelCurrent s) :
    ∃ u ∈ s.timers, t.tid = u.tid ∧
      (t.active = true → u.active = true ∧ s.reveal_timer ≠ some t.tid) := by
  unfold cancelCurrent at h
  revert h
  cases hr : s.reveal_timer with
  | none =>
    intro h
    exact ⟨t, h, rfl, fun ha => ⟨ha, by simp⟩⟩
  | some i =>
    intro h
    rcases mem_stopById h with ⟨u, hu, htid, _, _, hact⟩
    refine ⟨u, hu, htid, fun ha => ⟨(hact ha).1, ?_⟩⟩
    intro hc
    injection hc with hc2
    have : u.tid = i := by rw [← htid, ← hc2]
    exact (hact ha).2 this

theorem length_le_one_of_nodup_const {l : List Nat} {a : Nat}
    (hn : l.Nodup) (h : ∀ x ∈ l, x = a) : l.length ≤ 1 := by
  match l with
  | [] => simp
  | [x] => simp
  | x :: y :: rest =>
    exfalso
    have hx := h x (by simp)
    have hy := h y (by simp)
    have hni := (List.nodup_cons.mp hn).1
    exact hni (by simp [hx, hy])

theorem active_length_le_one (ts : List TimerObj) (handle : Option Nat)
    (hnd : (ts.map TimerObj.tid).Nodup)
    (hac : ∀ t ∈ ts, t.active = true → handle = some t.tid) :
    (ts.filter fun t => t.active).length ≤ 1 := by
  rcases hfa : ts.filter (fun t => t.active) with _ | ⟨t0, rest⟩
  · rw [hfa]
    simp
  · have hsub : (ts.filter fun t => t.active).Sublist ts :=
      List.filter_sublist _
    have hnd2 : ((ts.filter fun t => t.active).map TimerObj.tid).Nodup :=
      ((hsub.map TimerObj.tid).nodup) hnd
    have h0 : t0 ∈ ts.filter (fun t => t.active) := by rw [hfa]; simp
    have hmem := List.mem_filter.mp h0
    have hhandle : handle = some t0.tid := hac t0 hmem.1 (by simpa using hmem.2)
    have hall : ∀ x ∈ (ts.filter fun t => t.active).map TimerObj.tid, x = t0.tid := by
      intro x hx
      rcases List.mem_map.mp hx with ⟨t, ht, rfl⟩
      have ht2 := List.mem_filter.mp ht
      have hh := hac t ht2.1 (by simpa using ht2.2)
      rw [hhandle] at hh
      injection hh with h2
      exact h2.symm
    have hle := length_le_one_of_nodup_const hnd2 hall
    rw [List.length_map] at hle
    exact hle

theorem liveTimers_le_one {s : RevealState} (h : RevealInv s) : liveTimers s ≤ 1 :=
  active_length_le_one s.timers s.reveal_timer h.2.1 h.2.2.1

theorem toggle_reveal_of_hidden {s : RevealState} (hh : s.is_revealed = false) :
    toggle_reveal s =
      { is_revealed := true
        reveal_timer := some s.nextId
        timers := cancelCurrent s ++ [⟨s.nextId, true, 10000, true⟩]
        nextId := s.nextId + 1 } := by
  unfold toggle_reveal
  rw [hh]
  rfl

theorem toggle_reveal_of_revealed {s : RevealState} (hr : s.is_revealed = true) :
    toggle_reveal s = { s with is_revealed := false, timers := cancelCurrent s } := by
  unfold toggle_reveal
  rw [hr]
  rfl

theorem toggle_reveal_flips (s : RevealState) :
    (toggle_reveal s).is_revealed = !s.is_revealed := by
  cases hb : s.is_revealed
  · rw [toggle_reveal_of_hidden hb]
    rfl
  · rw [toggle_reveal_of_revealed hb]
    rfl

theorem RevealInv_toggle_of_hidden {s : RevealState} (h : RevealInv s)
    (hh : s.is_revealed = false) : RevealInv (toggle_reveal s) := by
  obtain ⟨hlt, hnd, hac, _, hin⟩ := h
  rw [toggle_reveal_of_hidden hh]
  unfold RevealInv
  refine ⟨?_, ?_, ?_, ?_, ?_⟩
  · intro t ht
    rcases List.mem_append.mp ht with hl | hr2
    · rcases mem_cancelCurrent hl with ⟨u, hu, htid, _⟩
      have := hlt u hu
      show t.tid < s.nextId + 1
      omega
    · simp only [List.mem_singleton] at hr2
      rw [hr2]
      show s.nextId < s.nextId + 1
      omega
  · show ((cancelCurrent s ++ [(⟨s.nextId, true, 10000, true⟩ : TimerObj)]).map TimerObj.tid).Nodup
    rw [List.map_append, cancelCurrent_tid, List.nodup_append]
    refine ⟨hnd, by simp, ?_⟩
    intro a ha hb
    simp only [List.map_cons, List.map_nil, List.mem_singleton] at hb
    rcases List.mem_map.mp ha with ⟨u, hu, rfl⟩
    have := hlt u hu
    rw [hb] at this
    omega
  · intro t ht hact
    rcases List.mem_append.mp ht with hl | hr2
    · rcases mem_cancelCurrent hl with ⟨u, hu, _, hi⟩
      have := (hi hact).1
      rw [hin hh u hu] at this
      exact absurd this (by simp)
    · simp only [List.mem_singleton] at hr2
      rw [hr2]
  · intro _
    exact ⟨⟨s.nextId, true, 10000, true⟩, List.mem_append_right _ (by simp), rfl, rfl⟩
  · intro hc
    simp at hc

theorem RevealInv_toggle_of_revealed {s : RevealState}
    (hlt : ∀ t ∈ s.timers, t.tid < s.nextId)
    (hnd : (s.timers.map TimerObj.tid).Nodup)
    (hac : ∀ t ∈ s.timers, t.active = true → s.reveal_timer = some t.tid)
    (hr : s.is_revealed = true) : RevealInv (toggle_reveal s) := by
  rw [toggle_reveal_of_revealed hr]
  have hnone : ∀ t ∈ cancelCurrent s, t.active = false := by
    intro t ht
    rcases mem_cancelCurrent ht with ⟨u, hu, htid, hi⟩
    by_contra hc
    simp only [Bool.not_eq_false] at hc
    have h1 := (hi hc).1
    have h2 := (hi hc).2
    have h3 := hac u hu h1
    rw [← htid] at h3
    exact h2 h3
  unfold RevealInv
  refine ⟨?_, ?_, ?_, ?_, ?_⟩
  · intro t ht
    rcases mem_cancelCurrent ht with ⟨u, hu, htid, _⟩
    show t.tid < s.nextId
    rw [htid]
    exact hlt u hu
  · show ((cancelCurrent s).map TimerObj.tid).Nodup
    rw [cancelCurrent_tid]
    exact hnd
  · intro t ht hact
    exact absurd hact (by simp [hnone t ht])
  · intro hc
    simp at hc
  · intro _
    exact hnone

theorem RevealInv_toggle {s : RevealState} (h : RevealInv s) :
    RevealInv (toggle_reveal s) := by
  cases hb : s.is_revealed
  · exact RevealInv_toggle_of_hidden h hb
  · exact RevealInv_toggle_of_revealed h.1 h.2.1 h.2.2.1 hb

theorem RevealInv_auto_hide_weak {s : RevealState}
    (hlt : ∀ t ∈ s.timers, t.tid < s.nextId)
    (hnd : (s.timers.map TimerObj.tid).Nodup)
    (hac : ∀ t ∈ s.timers, t.active = true → s.reveal_timer = some t.tid)
    (hin : s.is_revealed = false → ∀ t ∈ s.timers, t.active = false) :
    RevealInv (auto_hide s) := by
  unfold auto_hide
  cases hb : s.is_revealed
  · simp only [Bool.false_eq_true, if_neg, not_false_iff]
    unfold RevealInv
    exact ⟨hlt, hnd, hac, fun hc => absurd hc (by simp [hb]), hin⟩
  · simp only [if_pos]
    exact RevealInv_toggle_of_revealed hlt hnd hac hb

theorem RevealInv_auto_hide {s : RevealState} (h : RevealInv s) :
    RevealInv (auto_hide s) :=
  RevealInv_auto_hide_weak h.1 h.2.1 h.2.2.1 h.2.2.2.2

theorem RevealInv_fire {s : RevealState} (h : RevealInv s) (i : Nat) :
    RevealInv (fireRevealTimer s i) := by
  obtain ⟨hlt, hnd, hac, _, hin⟩ := h
  have h1lt : ∀ t ∈ stopById s.timers i, t.tid < s.nextId := by
    intro t ht
    rcases mem_stopById ht with ⟨u, hu, htid, _⟩
    rw [htid]
    exact hlt u hu
  have h1nd : ((stopById s.timers i).map TimerObj.tid).Nodup := by
    rw [stopById_tid]
    exact hnd
  have h1ac : ∀ t ∈ stopById s.timers i, t.active = true → s.reveal_timer = some t.tid := by
    intro t ht hact
    rcases mem_stopById ht with ⟨u, hu, htid, _, _, hi⟩
    rw [hac u hu (hi hact).1, htid]
  have h1in : s.is_revealed = false → ∀ t ∈ stopById s.timers i, t.active = false :=
    fun hb => stopById_inactive (hin hb)
  exact RevealInv_auto_hide_weak h1lt h1nd h1ac h1in

theorem pendingHide_eq {s : RevealState} (h : RevealInv s) :
    pendingHide s = s.is_revealed := by
  obtain ⟨_, _, _, hrev, hin⟩ := h
  unfold pendingHide
  cases hb : s.is_revealed
  · simp only [List.any_eq_false]
    intro t ht
    simp [hin hb t ht]
  · rcases hrev hb with ⟨t, ht, _, hact⟩
    simp only [List.any_eq_true]
    exact ⟨t, ht, hact⟩


/-- The state after `n` successive `toggle_reveal` calls starting from
the freshly initialized widget. -/
def togglesN : Nat → RevealState
  | 0 => revealInit
  | n + 1 => toggle_reveal (togglesN n)

theorem RevealInv_togglesN (n : Nat) : RevealInv (togglesN n) := by
  induction n with
  | zero => decide
  | succ n ih => exact RevealInv_toggle ih

theorem togglesN_parity (n : Nat) :
    (togglesN n).is_revealed = decide (n % 2 = 1) := by
  induction n with
  | zero => rfl
  | succ n ih =>
    have hflip : (togglesN (n + 1)).is_revealed = !(togglesN n).is_revealed :=
      toggle_reveal_flips (togglesN n)
    rw [hflip, ih]
    rcases Nat.mod_two_eq_zero_or_one n with h | h
    · have h1 : (n + 1) % 2 = 1 := by omega
      simp [h, h1]
    · have h0 : (n + 1) % 2 = 0 := by omega
      simp [h, h0]

/-- C4 (amended): `toggle_reveal` flips the revealed flag; on a
transition to revealed it stops any previous auto-hide timer and starts
a fresh single-shot 10-second timer, so at most one hide timer is live;
on a transition to hidden it stops any pending auto-hide timer; the
method itself returns no value (Python `None`) — the new revealed value
is read from the state, not from a return value. -/
theorem toggle_reveal_spec (s : RevealState) (h : RevealInv s) :
    (toggle_reveal s).is_revealed = !s.is_revealed ∧
    toggle_reveal_return = none ∧
    (s.is_revealed = false →
      (toggle_reveal s).reveal_timer = some s.nextId ∧
      (⟨s.nextId, true, 10000, true⟩ : TimerObj) ∈ (toggle_reveal s).timers ∧
      (∀ t ∈ (toggle_reveal s).timers, t.active = true → t.tid = s.nextId) ∧
      liveTimers (toggle_reveal s) ≤ 1) ∧
    (s.is_revealed = true → ∀ t ∈ (toggle_reveal s).timers, t.active = false) := by
  refine ⟨toggle_reveal_flips s, rfl, ?_, ?_⟩
  · intro hh
    have hinv := RevealInv_toggle h
    rw [toggle_reveal_of_hidden hh] at hinv ⊢
    refine ⟨rfl, List.mem_append_right _ (by simp), ?_, ?_⟩
    · intro t ht hact
      have := hinv.2.2.1 t ht hact
      injection this with h2
      exact h2.symm
    · rw [← toggle_reveal_of_hidden hh] at hinv ⊢
      exact liveTimers_le_one hinv
  · intro hr
    have hinv := RevealInv_toggle h
    have hflip : (toggle_reveal s).is_revealed = false := by
      rw [toggle_reveal_flips s, hr]
      rfl
    exact hinv.2.2.2.2 hflip

/-- C4 counterexample to the claim as stated: the Python `toggle_reveal`
method has no return statement, so it returns `None`, not the new
`is_revealed` value (which is `true` after toggling the initial state). -/
theorem toggle_reveal_return_counterexample :
    toggle_reveal_return ≠ some ((toggle_reveal revealInit).is_revealed) := by
  decide

/-- Witness for `toggle_reveal_spec` at the initial (hidden) state. -/
theorem toggle_reveal_spec_witness :
    (toggle_reveal revealInit).is_revealed = !revealInit.is_revealed ∧
    toggle_reveal_return = none ∧
    (revealInit.is_revealed = false →
      (toggle_reveal revealInit).reveal_timer = some revealInit.nextId ∧
      (⟨revealInit.nextId, true, 10000, true⟩ : TimerObj) ∈ (toggle_reveal revealInit).timers ∧
      (∀ t ∈ (toggle_reveal revealInit).timers, t.active = true → t.tid = revealInit.nextId) ∧
      liveTimers (toggle_reveal revealInit) ≤ 1) ∧
    (revealInit.is_revealed = true → ∀ t ∈ (toggle_reveal revealInit).timers, t.active = false) :=
  toggle_reveal_spec revealInit (by decide)

/-- C5: the timer slot `auto_hide` transitions to hidden only when still
revealed, and is a no-op on a state that is already hidden; in
particular a late fire of a (stopped) timer never flips a hidden state
back, so no spurious transition from Hidden occurs. -/
theorem auto_hide_spec (s : RevealState) :
    (s.is_revealed = false → auto_hide s = s) ∧
    (s.is_revealed = true → (auto_hide s).is_revealed = false) ∧
    (s.is_revealed = false → ∀ i : Nat, (fireRevealTimer s i).is_revealed = false) := by
  refine ⟨?_, ?_, ?_⟩
  · intro hh
    unfold auto_hide
    rw [hh]
    rfl
  · intro hr
    unfold auto_hide
    rw [hr]
    simp only [if_pos]
    rw [toggle_reveal_flips s, hr]
    rfl
  · intro hh i
    unfold fireRevealTimer auto_hide
    have : ({ s with timers := stopById s.timers i } : RevealState).is_revealed = false := hh
    rw [this]
    simp

/-- Witness for `auto_hide_spec`: at the initial hidden state the slot
is a no-op, and after one toggle (revealed) it forces hidden. -/
theorem auto_hide_spec_witness :
    auto_hide revealInit = revealInit ∧
    (auto_hide (toggle_reveal revealInit)).is_revealed = false ∧
    (fireRevealTimer revealInit 0).is_revealed = false :=
  ⟨(auto_hide_spec revealInit).1 rfl,
   (auto_hide_spec (toggle_reveal revealInit)).2.1 (by decide),
   (auto_hide_spec revealInit).2.2 rfl 0⟩

/-- C6: starting from the initial hidden widget, after `n` calls of
`toggle_reveal` the revealed flag equals `n % 2 == 1`, and at every
point of the sequence at most one auto-hide timer is live. -/
theorem togglesN_parity_and_bound (n : Nat) :
    (togglesN n).is_revealed = decide (n % 2 = 1) ∧
    liveTimers (togglesN n) ≤ 1 :=
  ⟨togglesN_parity n, liveTimers_le_one (RevealInv_togglesN n)⟩

/-- C7 counterexample to the claim as stated: after toggling twice from
the initial state the widget is hidden again, yet the `reveal_timer`
handle is still set — it points at the stopped timer object, so "handle
is set iff revealed" fails at a reachable state. -/
theorem reveal_handle_counterexample :
    (toggle_reveal (toggle_reveal revealInit)).is_revealed = false ∧
    (toggle_reveal (toggle_reveal revealInit)).reveal_timer ≠ none := by
  decide

/-- C7 (amended): with "pending hide-timer" read as a running (active)
auto-hide timer — rather than the raw handle field, which stays set
after hiding — the invariant holds: initially no timer is pending and
the widget is hidden, and on every state satisfying the reachable-state
invariant a pending timer exists iff revealed; the invariant is
preserved by `toggle_reveal` and by the timer firing. -/
theorem reveal_invariant_spec :
    (RevealInv revealInit ∧ pendingHide revealInit = revealInit.is_revealed) ∧
    ∀ s : RevealState, RevealInv s →
      pendingHide s = s.is_revealed ∧
      RevealInv (toggle_reveal s) ∧
      ∀ i : Nat, RevealInv (fireRevealTimer s i) :=
  ⟨⟨by decide, by decide⟩,
   fun s h => ⟨pendingHide_eq h, RevealInv_toggle h, fun i => RevealInv_fire h i⟩⟩

/-- Witness for `reveal_invariant_spec` at the state after one toggle. -/
theorem reveal_invariant_spec_witness :
    pendingHide (toggle_reveal revealInit) = (toggle_reveal revealInit).is_revealed ∧
    RevealInv (toggle_reveal (toggle_reveal revealInit)) ∧
    ∀ i : Nat, RevealInv (fireRevealTimer (toggle_reveal revealInit) i) :=
  reveal_invariant_spec.2 (toggle_reveal revealInit) (by decide)

/-! ## Command execution (`ItemButton.execute_command`, lines 1086-1257)

The subprocess boundary, the filesystem and path resolution are oracles
supplied as parameters; the usage tracker, the shell invocation, the
result dialog and warning logging are recorded as an event trace. -/

/-- `platform.system()` as dispatched on by the code: `'Windows'` or
anything else (the Unix-like branch using `/bin/bash`). -/
inductive OSName
  | Windows
  | UnixLike
  deriving DecidableEq, Repr

/-- Filesystem answer for a path: `Path(p).exists()` and
`Path(p).is_dir()`. -/
structure FsStat where
  fsExists : Bool
  isDir : Bool
  deriving DecidableEq, Repr

/-- Outcome of the `subprocess.run` call for this invocation:
normal completion with captured stdout/stderr and return code,
`subprocess.TimeoutExpired`, or any other exception (message `msg`),
e.g. a launch failure. -/
inductive ProcResult
  | completed (stdout stderr : String) (returncode : Int)
  | timedOut
  | raised (msg : String)
  deriving DecidableEq, Repr

/-- One `subprocess.run` invocation as issued by the widget: the command
string, the working directory passed as `cwd`, the timeout in seconds,
the `executable` argument (`/bin/bash` on non-Windows) and `shell=True`. -/
structure ShellCall where
  command : String
  cwd : Option String
  timeoutSecs : Nat
  executable : Option String
  usedShell : Bool
  deriving DecidableEq, Repr

/-- One `CommandOutputDialog(command, output, error, return_code)`. -/
structure DialogCall where
  command : String
  output : String
  error : String
  return_code : Int
  deriving DecidableEq, Repr

/-- One `usage_tracker.track_execution_end(item_id, start, success,
error)` call. -/
structure TrackEnd where
  item_id : Nat
  success : Bool
  error : Option String
  deriving DecidableEq, Repr

/-- Observable trace of one `execute_command` invocation: usage-tracker
start/end calls, shell invocations, result dialogs, count of
invalid-working-directory warnings, and whether an exception escaped to
the caller. -/
structure ExecTrace where
  track_starts : List Nat
  track_ends : List TrackEnd
  shell_calls : List ShellCall
  dialogs : List DialogCall
  warnings : Nat
  raisedToCaller : Bool
  deriving DecidableEq, Repr

/-- The empty trace of the early `return` for non-CODE items. -/
def emptyExecTrace : ExecTrace :=
  { track_starts := [], track_ends := [], shell_calls := [], dialogs := []
    warnings := 0, raisedToCaller := false }

/-- Working-directory resolution (lines 1117-1126): if the item carries
a truthy `working_dir` that exists and is a directory, use its absolute
form as `cwd`; otherwise `cwd` stays `None`, and a warning is logged
when a truthy `working_dir` failed the check. Returns `(cwd, warning
count)`. `absPath` is the `Path.absolute()` oracle. -/
def computeCwd (item : Item) (fs : String → FsStat) (absPath : String → String) :
    Option String × Nat :=
  match item.working_dir with
  | some w =>
      if w ≠ "" then
        if (fs w).fsExists && (fs w).isDir then (some (absPath w), 0)
        else (none, 1)
      else (none, 0)
  | none => (none, 0)

/-- Python `str.strip()`: remove leading and trailing whitespace
characters (defined over the character list so that it is fully
kernel-reducible, unlike `String.trim`). -/
def pyStrip (s : String) : String :=
  ⟨((s.data.dropWhile Char.isWhitespace).reverse.dropWhile Char.isWhitespace).reverse⟩

/-- The hard-coded timeout message shown on `subprocess.TimeoutExpired`. -/
def timeoutMessage : String := "Comando excedió el tiempo de espera (30 segundos)"

/-- Fallback error text when a failed command produced empty stderr. -/
def unknownErrorMessage : String := "Error desconocido"

/-- `ItemButton.execute_command` (lines 1086-1257). Non-CODE items
return immediately with no tracking. Otherwise `track_execution_start`
runs, the command is `item.content.strip()`, the working directory is
resolved, and `subprocess.run(command, shell=True, capture_output=True,
timeout=30, cwd=cwd)` is issued (with `executable='/bin/bash'` off
Windows). On completion, success is `returncode == 0`; on failure
`error_msg` is stderr or a fallback; a result dialog shows
`(command, stdout, stderr, returncode)`. On `TimeoutExpired` the dialog
shows `(command, "", timeout message, -1)`; on any other exception
`(command, "", str(e), -1)`. The `finally` block always calls
`track_execution_end(item_id, start, success, error_msg)`; no exception
propagates to the caller. Button restyling is UI-only and not traced. -/
def execute_command (item : Item) (system : OSName) (fs : String → FsStat)
    (absPath : String → String) (proc : ProcResult) : ExecTrace :=
  if item.type ≠ ItemType.CODE then emptyExecTrace
  else
    let command := pyStrip item.content
    let cwdWarn := computeCwd item fs absPath
    let exe : Option String :=
      match system with
      | OSName.Windows => none
      | OSName.UnixLike => some "/bin/bash"
    let call : ShellCall :=
      { command := command, cwd := cwdWarn.1, timeoutSecs := 30
        executable := exe, usedShell := true }
    match proc with
    | ProcResult.completed out err rc =>
        let succ := rc == 0
        let error_msg : Option String :=
          if succ then none
          else some (if err ≠ "" then err else unknownErrorMessage)
        { track_starts := [item.id]
          track_ends := [⟨item.id, succ, error_msg⟩]
          shell_calls := [call]
          dialogs := [⟨command, out, err, rc⟩]
          warnings := cwdWarn.2
          raisedToCaller := false }
    | ProcResult.timedOut =>
        { track_starts := [item.id]
          track_ends := [⟨item.id, false, some timeoutMessage⟩]
          shell_calls := [call]
          dialogs := [⟨command, "", timeoutMessage, -1⟩]
          warnings := cwdWarn.2
          raisedToCaller := false }
    | ProcResult.raised m =>
        { track_starts := [item.id]
          track_ends := [⟨item.id, false, some m⟩]
          shell_calls := [call]
          dialogs := [⟨command, "", m, -1⟩]
          warnings := cwdWarn.2
          raisedToCaller := false }

/-- C1 counterexample to the claim as stated: for a CODE item whose
content is whitespace only (trims to empty), `execute_command` performs
no emptiness check — the shell is invoked with the empty command string,
and the start/end pair records an ordinary success (shell exit 0), not a
`LaunchFailure`. -/
theorem empty_command_counterexample :
    (execute_command ⟨1, ItemType.CODE, "   ", "c", false, none⟩ OSName.UnixLike
        (fun _ => ⟨false, false⟩) (fun p => p)
        (ProcResult.completed "" "" 0)).shell_calls =
      [⟨"", none, 30, some "/bin/bash", true⟩] ∧
    (execute_command ⟨1, ItemType.CODE, "   ", "c", false, none⟩ OSName.UnixLike
        (fun _ => ⟨false, false⟩) (fun p => p)
        (ProcResult.completed "" "" 0)).track_ends = [⟨1, true, none⟩] := by
  decide

/-- C1 (amended): a CODE item whose content trims to the empty string is
not rejected: the shell is invoked with the empty command, and exactly
one usage-tracking start/end pair is recorded for the invocation,
reflecting the shell outcome rather than a launch failure. -/
theorem empty_command_spec (item : Item) (system : OSName) (fs : String → FsStat)
    (absPath : String → String) (proc : ProcResult)
    (hc : item.type = ItemType.CODE) (he : pyStrip item.content = "") :
    (execute_command item system fs absPath proc).shell_calls.map ShellCall.command =
      [""] ∧
    (execute_command item system fs absPath proc).track_starts = [item.id] ∧
    (execute_command item system fs absPath proc).track_ends.length = 1 := by
  unfold execute_command
  cases proc <;> simp [hc, he]

/-- Witness for `empty_command_spec` at a concrete whitespace command. -/
theorem empty_command_spec_witness :
    (execute_command ⟨2, ItemType.CODE, " ", "c", false, none⟩ OSName.Windows
        (fun _ => ⟨true, true⟩) (fun p => p)
        (ProcResult.completed "" "" 0)).shell_calls.map ShellCall.command = [""] ∧
    (execute_command ⟨2, ItemType.CODE, " ", "c", false, none⟩ OSName.Windows
        (fun _ => ⟨true, true⟩) (fun p => p)
        (ProcResult.completed "" "" 0)).track_starts = [2] ∧
    (execute_command ⟨2, ItemType.CODE, " ", "c", false, none⟩ OSName.Windows
        (fun _ => ⟨true, true⟩) (fun p => p)
        (ProcResult.completed "" "" 0)).track_ends.length = 1 :=
  empty_command_spec ⟨2, ItemType.CODE, " ", "c", false, none⟩ OSName.Windows
    (fun _ => ⟨true, true⟩) (fun p => p) (ProcResult.completed "" "" 0)
    rfl (by decide)

/-- C2: for every CODE item and every process outcome — success,
non-zero exit, timeout, or any other exception — exactly one
`track_execution_start` and one `track_execution_end` call is recorded,
paired on the item's id. -/
theorem tracking_paired (item : Item) (system : OSName) (fs : String → FsStat)
    (absPath : String → String) (proc : ProcResult)
    (hc : item.type = ItemType.CODE) :
    (execute_command item system fs absPath proc).track_starts = [item.id] ∧
    (execute_command item system fs absPath proc).track_ends.map TrackEnd.item_id =
      [item.id] := by
  unfold execute_command
  cases proc <;> simp [hc]

/-- Witness for `tracking_paired` on a timeout outcome. -/
theorem tracking_paired_witness :
    (execute_command ⟨3, ItemType.CODE, "sleep 60", "s", false, none⟩ OSName.UnixLike
        (fun _ => ⟨true, true⟩) (fun p => p) ProcResult.timedOut).track_starts = [3] ∧
    (execute_command ⟨3, ItemType.CODE, "sleep 60", "s", false, none⟩ OSName.UnixLike
        (fun _ => ⟨true, true⟩) (fun p => p)
        ProcResult.timedOut).track_ends.map TrackEnd.item_id = [3] :=
  tracking_paired ⟨3, ItemType.CODE, "sleep 60", "s", false, none⟩ OSName.UnixLike
    (fun _ => ⟨true, true⟩) (fun p => p) ProcResult.timedOut rfl

/-- C3: when the subprocess raises `TimeoutExpired`, `execute_command`
reports the outcome as a dialog carrying the sentinel exit code -1 and
the human-readable timeout message in the error field, records the
end-tracking call as a failure with that message, and lets no exception
escape to the caller. -/
theorem timeout_spec (item : Item) (system : OSName) (fs : String → FsStat)
    (absPath : String → String) (hc : item.type = ItemType.CODE) :
    (execute_command item system fs absPath ProcResult.timedOut).dialogs =
      [⟨pyStrip item.content, "", timeoutMessage, -1⟩] ∧
    (execute_command item system fs absPath ProcResult.timedOut).track_ends =
      [⟨item.id, false, some timeoutMessage⟩] ∧
    (execute_command item system fs absPath ProcResult.timedOut).raisedToCaller =
      false := by
  unfold execute_command
  simp [hc]

/-- Witness for `timeout_spec` at a concrete long-running command. -/
theorem timeout_spec_witness :
    (execute_command ⟨4, ItemType.CODE, "sleep 60", "s", false, none⟩ OSName.UnixLike
        (fun _ => ⟨true, true⟩) (fun p => p) ProcResult.timedOut).dialogs =
      [⟨"sleep 60", "", timeoutMessage, -1⟩] ∧
    (execute_command ⟨4, ItemType.CODE, "sleep 60", "s", false, none⟩ OSName.UnixLike
        (fun _ => ⟨true, true⟩) (fun p => p) ProcResult.timedOut).track_ends =
      [⟨4, false, some timeoutMessage⟩] ∧
    (execute_command ⟨4, ItemType.CODE, "sleep 60", "s", false, none⟩ OSName.UnixLike
        (fun _ => ⟨true, true⟩) (fun p => p) ProcResult.timedOut).raisedToCaller =
      false :=
  timeout_spec ⟨4, ItemType.CODE, "sleep 60", "s", false, none⟩ OSName.UnixLike
    (fun _ => ⟨true, true⟩) (fun p => p) rfl

/-- C8: for a CODE item carrying a non-empty working directory that does
not exist or is not a directory, exactly one warning is surfaced, the
shell is still invoked exactly once with `cwd = None` (the process
default directory), and no exception reaches the caller — for every
process outcome. -/
theorem invalid_working_dir_spec (item : Item) (system : OSName)
    (fs : String → FsStat) (absPath : String → String) (proc : ProcResult)
    (w : String) (hc : item.type = ItemType.CODE) (hw : item.working_dir = some w)
    (hne : w ≠ "") (hbad : ((fs w).fsExists && (fs w).isDir) = false) :
    (execute_command item system fs absPath proc).warnings = 1 ∧
    (execute_command item system fs absPath proc).shell_calls.map ShellCall.cwd =
      [none] ∧
    (execute_command item system fs absPath proc).raisedToCaller = false := by
  unfold execute_command computeCwd
  rw [hw]
  cases proc <;> simp [hc, hne, hbad]

/-- Witness for `invalid_working_dir_spec`: a nonexistent directory. -/
theorem invalid_working_dir_spec_witness :
    (execute_command ⟨5, ItemType.CODE, "echo hello", "e", false, some "/nope"⟩
        OSName.UnixLike (fun _ => ⟨false, false⟩) (fun p => p)
        (ProcResult.completed "hello" "" 0)).warnings = 1 ∧
    (execute_command ⟨5, ItemType.CODE, "echo hello", "e", false, some "/nope"⟩
        OSName.UnixLike (fun _ => ⟨false, false⟩) (fun p => p)
        (ProcResult.completed "hello" "" 0)).shell_calls.map ShellCall.cwd = [none] ∧
    (execute_command ⟨5, ItemType.CODE, "echo hello", "e", false, some "/nope"⟩
        OSName.UnixLike (fun _ => ⟨false, false⟩) (fun p => p)
        (ProcResult.completed "hello" "" 0)).raisedToCaller = false :=
  invalid_working_dir_spec ⟨5, ItemType.CODE, "echo hello", "e", false, some "/nope"⟩
    OSName.UnixLike (fun _ => ⟨false, false⟩) (fun p => p)
    (ProcResult.completed "hello" "" 0) "/nope" rfl rfl (by decide) rfl

/-! ## URL opening (`open_in_browser` lines 535-577,
`open_in_system_browser` lines 579-621) -/

/-- Python `str.startswith` on character lists (kernel-reducible). -/
def startsWithChars : List Char → List Char → Bool
  | _, [] => true
  | [], _ :: _ => false
  | c :: cs, d :: ds => c == d && startsWithChars cs ds

/-- Python `url.startswith(p)` for a single pattern string `p`. -/
def pyStartsWith (s p : String) : Bool :=
  startsWithChars s.data p.data

/-- The URL-scheme normalization both browser-opening methods perform:
if the content starts with neither `http://` nor `https://`, prepend
`https://` (the `www.` sub-branch performs the same prepend); otherwise
pass the content through unchanged. -/
def ensureUrlScheme (url : String) : String :=
  if !(pyStartsWith url "http://" || pyStartsWith url "https://") then
    if pyStartsWith url "www." then "https://" ++ url
    else "https://" ++ url
  else url

/-- Observable trace of one browser-opening call: usage tracking and
the URL handed to the open target (the `url_open_requested` signal for
the embedded browser, `webbrowser.open` for the system browser). -/
structure UrlOpenTrace where
  track_starts : List Nat
  track_ends : List TrackEnd
  opened : List String
  deriving DecidableEq, Repr

/-- `ItemButton.open_in_browser` (lines 535-577): URL items only;
track start, normalize the scheme, emit `url_open_requested` with the
normalized URL, track end with success. Button restyling is UI-only. -/
def open_in_browser (item : Item) : UrlOpenTrace :=
  if item.type = ItemType.URL then
    { track_starts := [item.id]
      track_ends := [⟨item.id, true, none⟩]
      opened := [ensureUrlScheme item.content] }
  else ⟨[], [], []⟩

/-- `ItemButton.open_in_system_browser` (lines 579-621): identical
control flow, with `webbrowser.open` as the open target. -/
def open_in_system_browser (item : Item) : UrlOpenTrace :=
  if item.type = ItemType.URL then
    { track_starts := [item.id]
      track_ends := [⟨item.id, true, none⟩]
      opened := [ensureUrlScheme item.content] }
  else ⟨[], [], []⟩

/-- C9: for every URL item, both browser-opening operations prepend
`https://` when the content starts with neither `http://` nor
`https://` (which covers contents starting with `www.`), and pass the
content through unchanged when it already carries either scheme. -/
theorem url_scheme_spec (item : Item) (hts : item.type = ItemType.URL) :
    ((pyStartsWith item.content "http://" || pyStartsWith item.content "https://") = false →
      (open_in_browser item).opened = ["https://" ++ item.content] ∧
      (open_in_system_browser item).opened = ["https://" ++ item.content]) ∧
    ((pyStartsWith item.content "http://" || pyStartsWith item.content "https://") = true →
      (open_in_browser item).opened = [item.content] ∧
      (open_in_system_browser item).opened = [item.content]) := by
  unfold open_in_browser open_in_system_browser ensureUrlScheme
  constructor
  · intro hno
    rw [hno]
    by_cases hw : pyStartsWith item.content "www." = true <;> simp [hts, hw]
  · intro hyes
    rw [hyes]
    simp [hts]

/-- Witness for `url_scheme_spec` at a `www.`-style URL item. -/
theorem url_scheme_spec_witness :
    (open_in_browser ⟨6, ItemType.URL, "www.example.com", "u", false, none⟩).opened =
      ["https://" ++ "www.example.com"] ∧
    (open_in_system_browser ⟨6, ItemType.URL, "www.example.com", "u", false, none⟩).opened =
      ["https://" ++ "www.example.com"] :=
  (url_scheme_spec ⟨6, ItemType.URL, "www.example.com", "u", false, none⟩ rfl).1
    (by decide)

/-! ## Clipboard-clear timer (`on_clicked` lines 515-533,
`start_clipboard_clear_timer` lines 940-950) -/

/-- The clipboard-clearing part of the `ItemButton` state:
`clipboard_clear_timer` is the handle field initialized to `None` at
`__init__` (line 51); `ctimers` lists every clipboard-clear `QTimer`
object created by this widget and `cnextId` supplies fresh ids. -/
structure ClipState where
  clipboard_clear_timer : Option Nat
  ctimers : List TimerObj
  cnextId : Nat
  deriving DecidableEq, Repr

/-- `ItemButton.__init__` line 51: `self.clipboard_clear_timer = None`. -/
def clipInit : ClipState :=
  { clipboard_clear_timer := none, ctimers := [], cnextId := 0 }

/-- `ItemButton.start_clipboard_clear_timer` (lines 940-950): stop the
previous clipboard timer if one exists, then create and start a fresh
single-shot 30000 ms `QTimer` connected to `clear_clipboard` and store
its handle. -/
def start_clipboard_clear_timer (s : ClipState) : ClipState :=
  let stopped :=
    match s.clipboard_clear_timer with
    | some i => stopById s.ctimers i
    | none => s.ctimers
  { clipboard_clear_timer := some s.cnextId
    ctimers := stopped ++ [⟨s.cnextId, true, 30000, true⟩]
    cnextId := s.cnextId + 1 }

/-- Usage-tracking trace of one `on_clicked` call. -/
structure ClickTrace where
  track_starts : List Nat
  track_ends : List TrackEnd
  deriving DecidableEq, Repr

/-- `ItemButton.on_clicked` (lines 515-533): for items that are neither
URL nor PATH a usage start/end pair is recorded around the copy; the
`item_clicked` signal and the copied feedback are UI-only; finally, if
the item is sensitive, the clipboard-clear timer is (re)started. -/
def on_clicked (item : Item) (s : ClipState) : ClipState × ClickTrace :=
  let tr : ClickTrace :=
    if item.type = ItemType.URL ∨ item.type = ItemType.PATH then ⟨[], []⟩
    else ⟨[item.id], [⟨item.id, true, none⟩]⟩
  let s2 := if item.is_sensitive then start_clipboard_clear_timer s else s
  (s2, tr)

/-- Number of live (running) clipboard-clear timers of the widget. -/
def liveClipTimers (s : ClipState) : Nat :=
  (s.ctimers.filter fun t => t.active).length

/-- Reachable-state invariant of the clipboard-clear machinery: timer
ids are fresh and distinct, and every running clipboard timer is the
one named by the current handle. -/
def ClipInv (s : ClipState) : Prop :=
  (∀ t ∈ s.ctimers, t.tid < s.cnextId) ∧
  (s.ctimers.map TimerObj.tid).Nodup ∧
  (∀ t ∈ s.ctimers, t.active = true → s.clipboard_clear_timer = some t.tid)

instance (s : ClipState) : Decidable (ClipInv s) := by
  unfold ClipInv; infer_instance

theorem mem_clip_stopped {s : ClipState} {t : TimerObj}
    (h : t ∈ (match s.clipboard_clear_timer with
              | some i => stopById s.ctimers i
              | none => s.ctimers)) :
    ∃ u ∈ s.ctimers, t.tid = u.tid ∧
      (t.active = true → u.active = true ∧ s.clipboard_clear_timer ≠ some t.tid) := by
  revert h
  cases hr : s.clipboard_clear_timer with
  | none =>
    intro h
    exact ⟨t, h, rfl, fun ha => ⟨ha, by simp⟩⟩
  | some i =>
    intro h
    rcases mem_stopById h with ⟨u, hu, htid, _, _, hact⟩
    refine ⟨u, hu, htid, fun ha => ⟨(hact ha).1, ?_⟩⟩
    intro hc
    injection hc with hc2
    have : u.tid = i := by rw [← htid, ← hc2]
    exact (hact ha).2 this

theorem ClipInv_start {s : ClipState} (h : ClipInv s) :
    ClipInv (start_clipboard_clear_timer s) := by
  obtain ⟨hlt, hnd, hac⟩ := h
  unfold start_clipboard_clear_timer ClipInv
  refine ⟨?_, ?_, ?_⟩
  · intro t ht
    rcases List.mem_append.mp ht with hl | hr2
    · rcases mem_clip_stopped hl with ⟨u, hu, htid, _⟩
      have := hlt u hu
      show t.tid < s.cnextId + 1
      omega
    · simp only [List.mem_singleton] at hr2
      rw [hr2]
      show s.cnextId < s.cnextId + 1
      omega
  · show (((match s.clipboard_clear_timer with
            | some i => stopById s.ctimers i
            | none => s.ctimers) ++
          [(⟨s.cnextId, true, 30000, true⟩ : TimerObj)]).map TimerObj.tid).Nodup
    have htid : (match s.clipboard_clear_timer with
                 | some i => stopById s.ctimers i
                 | none => s.ctimers).map TimerObj.tid = s.ctimers.map TimerObj.tid := by
      cases s.clipboard_clear_timer <;> simp [stopById_tid]
    rw [List.map_append, htid, List.nodup_append]
    refine ⟨hnd, by simp, ?_⟩
    intro a ha hb
    simp only [List.map_cons, List.map_nil, List.mem_singleton] at hb
    rcases List.mem_map.mp ha with ⟨u, hu, rfl⟩
    have := hlt u hu
    rw [hb] at this
    omega
  · intro t ht hact
    rcases List.mem_append.mp ht with hl | hr2
    · rcases mem_clip_stopped hl with ⟨u, hu, htid, hi⟩
      have h1 := (hi hact).1
      have h2 := (hi hact).2
      have h3 := hac u hu h1
      rw [← htid] at h3
      exact absurd h3 h2
    · simp only [List.mem_singleton] at hr2
      rw [hr2]

theorem clip_start_active_only_fresh {s : ClipState} (h : ClipInv s) :
    ∀ t ∈ (start_clipboard_clear_timer s).ctimers, t.active = true →
      t.tid = s.cnextId := by
  intro t ht hact
  have hinv := ClipInv_start h
  have := hinv.2.2 t ht hact
  injection this with h2
  exact h2.symm

/-- C10: every click on a sensitive item restarts the clipboard-clear
timer: the previous timer (if any) is stopped first, a fresh single-shot
30-second timer becomes the handle, it is the only live clipboard-clear
timer of the widget (so the clipboard will be cleared 30 seconds after
the most recent sensitive copy), and the invariant is preserved; clicks
on non-sensitive items leave the clipboard-timer state untouched. -/
theorem clipboard_timer_spec (item : Item) (s : ClipState) (h : ClipInv s) :
    (item.is_sensitive = true →
      (on_clicked item s).1.clipboard_clear_timer = some s.cnextId ∧
      (⟨s.cnextId, true, 30000, true⟩ : TimerObj) ∈ (on_clicked item s).1.ctimers ∧
      (∀ t ∈ (on_clicked item s).1.ctimers, t.active = true → t.tid = s.cnextId) ∧
      liveClipTimers (on_clicked item s).1 ≤ 1 ∧
      ClipInv (on_clicked item s).1) ∧
    (item.is_sensitive = false → (on_clicked item s).1 = s) := by
  unfold on_clicked
  constructor
  · intro hs
    simp only [hs, if_pos]
    have hinv := ClipInv_start h
    refine ⟨rfl, ?_, clip_start_active_only_fresh h, ?_, hinv⟩
    · exact List.mem_append_right _ (by simp)
    · exact active_length_le_one _ _ hinv.2.1 hinv.2.2
  · intro hs
    simp [hs]

/-- Witness for `clipboard_timer_spec`: a sensitive TEXT item clicked
on the freshly initialized widget. -/
theorem clipboard_timer_spec_witness :
    (on_clicked ⟨7, ItemType.TEXT, "secret", "t", true, none⟩ clipInit).1.clipboard_clear_timer =
      some clipInit.cnextId ∧
    (⟨clipInit.cnextId, true, 30000, true⟩ : TimerObj) ∈
      (on_clicked ⟨7, ItemType.TEXT, "secret", "t", true, none⟩ clipInit).1.ctimers ∧
    (∀ t ∈ (on_clicked ⟨7, ItemType.TEXT, "secret", "t", true, none⟩ clipInit).1.ctimers,
      t.active = true → t.tid = clipInit.cnextId) ∧
    liveClipTimers (on_clicked ⟨7, ItemType.TEXT, "secret", "t", true, none⟩ clipInit).1 ≤ 1 ∧
    ClipInv (on_clicked ⟨7, ItemType.TEXT, "secret", "t", true, none⟩ clipInit).1 :=
  (clipboard_timer_spec ⟨7, ItemType.TEXT, "secret", "t", true, none⟩ clipInit
    (by decide)).1 rfl

end WidgSid
